import Mathlib

/-!
Verification of the query-processing core of the c-ares asynchronous DNS
resolver (`src/lib/ares_process.c`).

The definitions below are a shallow embedding of the C functions in that
file: machine integers are modelled as `Nat`/`Int`, the opaque external
collaborators (DnsCodec, Transport, QueryCache, CookieEngine, Metrics,
Random) appear as explicit parameters holding their results, and the
mutation of channel state is made explicit (effect traces, or returned
updated records).  Each definition is named after the C function or type
it embeds and is annotated with the structure it follows.
-/

namespace AresProcess

/-- Status codes (`ares_status_t`), restricted to the constructors used by
`ares_process.c`. -/
inductive Status where
  | success
  | enomem
  | enoserver
  | econnrefused
  | ebadfamily
  | ebadresp
  | eservfail
  | enotimp
  | erefused
  | eformerr
  | etimeout
deriving DecidableEq, Repr

/-- DNS response codes (`ares_dns_rcode_t`), restricted to those inspected
by `process_answer`. -/
inductive Rcode where
  | noerror
  | formerr
  | servfail
  | notimp
  | refused
  | other (n : Nat)
deriving DecidableEq, Repr

/-- `ares_timeval_t`: a (seconds, microseconds) pair. -/
structure Timeval where
  sec : Int
  usec : Int
deriving DecidableEq, Repr

/-- `ares__timedout` (ares_process.c lines 160-176): true iff `now` is at
`check` or later. -/
def ares__timedout (now check : Timeval) : Bool :=
  let secs : Int := now.sec - check.sec
  if secs > 0 then true
  else if secs < 0 then false
  else decide (now.usec - check.usec ≥ 0)

/-- `ares__calc_query_timeout` (ares_process.c lines 913-963).

`timeout` is the value returned by `ares_metrics_server_timeout` (the
"base" timeout), `r` the 16-bit value drawn from the RNG.  The C jitter
computation `timeplus -= (size_t)((float)timeplus * ((float)r / USHRT_MAX) * 0.5f)`
is embedded with exact integer arithmetic: the subtracted amount is
`timeplus * r / 131070` (note `131070 = 2 * 65535`). -/
def ares__calc_query_timeout (try_count num_servers timeout maxtimeout r : Nat) : Nat :=
  if num_servers = 0 then 0
  else
    let rounds := try_count / num_servers
    let timeplus := if rounds > 0 then timeout <<< rounds else timeout
    let timeplus := if maxtimeout ≠ 0 ∧ timeplus > maxtimeout then maxtimeout else timeplus
    let timeplus := if rounds > 0 then timeplus - timeplus * r / 131070 else timeplus
    if timeplus < timeout then timeout else timeplus

/-- `ares_server_t`: the fields of a server inspected by server selection.
`idx` is the configuration (priority) index. -/
structure Server where
  idx : Nat
  consec_failures : Nat
  next_retry_time : Timeval
deriving DecidableEq, Repr

/-- The per-server eligibility test of the retry scan inside
`ares__failover_server` (ares_process.c lines 899-906): the server has
failures recorded and its penalty window has elapsed. -/
def retry_eligible (now : Timeval) (s : Server) : Bool :=
  decide (s.consec_failures > 0) && ares__timedout now s.next_retry_time

/-- The scan loop of `ares__failover_server` (ares_process.c lines
899-906): walk the sorted server sequence and return the first server
eligible for a retry. -/
def failover_scan (now : Timeval) : List Server → Option Server
  | [] => none
  | s :: rest => if retry_eligible now s then some s else failover_scan now rest

/-- `ares__failover_server` (ares_process.c lines 864-911).  `servers` is
the channel's sorted server sequence, `r` the drawn 16-bit random value
(drawn only if the function reaches that point; passing it as a parameter
is harmless for the earlier branches, which ignore it). -/
def ares__failover_server (servers : List Server) (server_retry_chance r : Nat)
    (now : Timeval) : Option Server :=
  match servers.head? with
  | none => none
  | some first_server =>
    if (match servers.getLast? with
        | some last_server => last_server.consec_failures == 0
        | none => false) then
      some first_server
    else if server_retry_chance = 0 then
      some first_server
    else if r % server_retry_chance = 0 then
      match failover_scan now servers with
      | some s => some s
      | none => some first_server
    else
      some first_server

/-- `failover_scan` is the first-match search over the server sequence. -/
theorem failover_scan_eq_find (now : Timeval) (l : List Server) :
    failover_scan now l = l.find? (retry_eligible now) := by
  induction l with
  | nil => rfl
  | cons s rest ih =>
    simp only [failover_scan, List.find?]
    by_cases h : retry_eligible now s
    · simp [h]
    · simp only [h, if_false, Bool.false_eq_true]
      simpa using ih

/-- Claim C2: in failover mode, for every non-empty server registry,
server selection returns the first sorted server whenever the last server
has `consec_failures = 0` or `server_retry_chance = 0`; otherwise, when
the drawn 16-bit value `r` satisfies `r % server_retry_chance = 0` it
returns the first server in sorted order with `consec_failures > 0` and
`now >= next_retry_time` if one exists (falling back to the first server),
and in every remaining case it returns the first server. -/
theorem failover_server_spec (servers : List Server) (chance r : Nat) (now : Timeval)
    (first : Server) (hfirst : servers.head? = some first) :
    ((∃ last, servers.getLast? = some last ∧ last.consec_failures = 0) ∨ chance = 0 →
      ares__failover_server servers chance r now = some first)
    ∧ (∀ last, servers.getLast? = some last → last.consec_failures ≠ 0 → chance ≠ 0 →
        r % chance = 0 →
        ares__failover_server servers chance r now =
          some ((servers.find? (retry_eligible now)).getD first))
    ∧ (∀ last, servers.getLast? = some last → last.consec_failures ≠ 0 → chance ≠ 0 →
        r % chance ≠ 0 →
        ares__failover_server servers chance r now = some first) := by
  refine ⟨?_, ?_, ?_⟩
  · rintro (⟨last, hlast, hzero⟩ | hchance)
    · simp [ares__failover_server, hfirst, hlast, hzero]
    · simp only [ares__failover_server, hfirst]
      cases hl : servers.getLast? with
      | none => simp [hchance]
      | some l =>
        by_cases hz : l.consec_failures = 0
        · simp [hz]
        · simp [hz, hchance]
  · intro last hlast hnz hchance hmod
    simp only [ares__failover_server, hfirst, hlast]
    rw [if_neg (by simpa using hnz), if_neg hchance, if_pos hmod,
      failover_scan_eq_find]
    cases servers.find? (retry_eligible now) <;> simp
  · intro last hlast hnz hchance hmod
    simp only [ares__failover_server, hfirst, hlast]
    rw [if_neg (by simpa using hnz), if_neg hchance, if_neg hmod]

/-- Witness for C2: a one-server registry whose server has a failure and
an elapsed retry window, with `server_retry_chance = 2` and `r = 2`. -/
theorem failover_server_spec_witness :
    ares__failover_server [⟨0, 1, ⟨0, 0⟩⟩] 2 2 ⟨5, 0⟩ =
      some (([(⟨0, 1, ⟨0, 0⟩⟩ : Server)].find? (retry_eligible ⟨5, 0⟩)).getD
        ⟨0, 1, ⟨0, 0⟩⟩) :=
  (failover_server_spec [⟨0, 1, ⟨0, 0⟩⟩] 2 2 ⟨5, 0⟩ ⟨0, 1, ⟨0, 0⟩⟩ rfl).2.1
    ⟨0, 1, ⟨0, 0⟩⟩ rfl (by decide) (by decide) (by decide)

/-- The maxtimeout cap of §4.E.1 of the specification, written from the
spec's words: `if maxtimeout > 0 and tp > maxtimeout: tp = maxtimeout`
applied to `tp = base << rounds`. -/
def spec_capped (base maxtimeout rounds : Nat) : Nat :=
  if 0 < maxtimeout ∧ maxtimeout < base <<< rounds then maxtimeout
  else base <<< rounds

/-- The jitter step of §4.E.1 of the specification, written from the
spec's words: only applied when `rounds > 0`, subtracting
`floor(tp * (r / 65535) * 0.5)` (exact arithmetic: `tp * r / 131070`). -/
def spec_jitter (rounds capped r : Nat) : Nat :=
  if 0 < rounds then capped - capped * r / 131070 else capped

/-- Claim C4: the computed per-attempt timeout equals the base server
timeout shifted left by `rounds = try_count / num_servers`, capped at
`maxtimeout` when positive, then (only when `rounds > 0`) jittered into
`[capped/2, capped]`, and finally clamped from below by the base; when
`try_count < num_servers` the result is exactly the base. -/
theorem calc_query_timeout_spec (try_count num_servers timeout maxtimeout r : Nat)
    (hns : 1 ≤ num_servers) (hr : r ≤ 65535) :
    ares__calc_query_timeout try_count num_servers timeout maxtimeout r
      = max timeout (spec_jitter (try_count / num_servers)
          (spec_capped timeout maxtimeout (try_count / num_servers)) r)
    ∧ (0 < try_count / num_servers →
        spec_capped timeout maxtimeout (try_count / num_servers) / 2
          ≤ spec_jitter (try_count / num_servers)
              (spec_capped timeout maxtimeout (try_count / num_servers)) r
        ∧ spec_jitter (try_count / num_servers)
              (spec_capped timeout maxtimeout (try_count / num_servers)) r
          ≤ spec_capped timeout maxtimeout (try_count / num_servers))
    ∧ timeout ≤ ares__calc_query_timeout try_count num_servers timeout maxtimeout r
    ∧ (try_count < num_servers →
        ares__calc_query_timeout try_count num_servers timeout maxtimeout r = timeout) := by
  have hns0 : ¬ num_servers = 0 := by omega
  have hitemax : ∀ a x : Nat, (if x < a then a else x) = max a x := by
    intro a x
    rcases Nat.lt_or_ge x a with h | h
    · rw [if_pos h, max_eq_left (Nat.le_of_lt h)]
    · rw [if_neg (not_lt.mpr h), max_eq_right h]
  have hjle : spec_capped timeout maxtimeout (try_count / num_servers) * r / 131070
      ≤ spec_capped timeout maxtimeout (try_count / num_servers) / 2 := by
    calc spec_capped timeout maxtimeout (try_count / num_servers) * r / 131070
        ≤ spec_capped timeout maxtimeout (try_count / num_servers) * 65535 / 131070 :=
          Nat.div_le_div_right (Nat.mul_le_mul_left _ hr)
      _ = spec_capped timeout maxtimeout (try_count / num_servers) / 2 := by
          rw [show (131070 : Nat) = 2 * 65535 by norm_num]
          exact Nat.mul_div_mul_right _ _ (by norm_num)
  have heq : ares__calc_query_timeout try_count num_servers timeout maxtimeout r
      = max timeout (spec_jitter (try_count / num_servers)
          (spec_capped timeout maxtimeout (try_count / num_servers)) r) := by
    simp only [ares__calc_query_timeout, if_neg hns0]
    rw [hitemax]
    congr 1
    simp only [spec_jitter, spec_capped]
    by_cases h0 : 0 < try_count / num_servers
    · have hcond : (maxtimeout ≠ 0 ∧ timeout <<< (try_count / num_servers) > maxtimeout)
          ↔ (0 < maxtimeout ∧ maxtimeout < timeout <<< (try_count / num_servers)) := by
        constructor <;> (rintro ⟨a, b⟩; exact ⟨by omega, b⟩)
      rw [if_pos h0, if_pos h0, if_pos h0, if_congr hcond rfl rfl]
    · have hcond : (maxtimeout ≠ 0 ∧ timeout > maxtimeout)
          ↔ (0 < maxtimeout ∧ maxtimeout < timeout <<< (try_count / num_servers)) := by
        have h0' : try_count / num_servers = 0 := Nat.eq_zero_of_not_pos h0
        rw [h0', Nat.shiftLeft_zero]
        constructor <;> (rintro ⟨a, b⟩; exact ⟨by omega, b⟩)
      rw [if_neg h0, if_neg h0, if_neg h0, if_congr hcond rfl rfl]
      have h0' : try_count / num_servers = 0 := Nat.eq_zero_of_not_pos h0
      rw [h0', Nat.shiftLeft_zero]
  refine ⟨heq, fun h0 => ?_, ?_, fun hlt => ?_⟩
  · simp only [spec_jitter, if_pos h0]
    omega
  · rw [heq]; exact Nat.le_max_left _ _
  · have h0' : try_count / num_servers = 0 := Nat.div_eq_of_lt hlt
    rw [heq, h0']
    have hj : spec_jitter 0 (spec_capped timeout maxtimeout 0) r
        = spec_capped timeout maxtimeout 0 := by
      simp [spec_jitter]
    rw [hj]
    have hc : spec_capped timeout maxtimeout 0 ≤ timeout := by
      simp only [spec_capped, Nat.shiftLeft_zero]
      split_ifs with h <;> omega
    exact max_eq_left hc

/-- Witness for C4: two servers, third attempt (`try_count = 5`), base
timeout 100ms, no maxtimeout, jitter draw 0. -/
theorem calc_query_timeout_spec_witness :
    ares__calc_query_timeout 5 2 100 0 0
      = max 100 (spec_jitter (5 / 2) (spec_capped 100 0 (5 / 2)) 0) :=
  (calc_query_timeout_spec 5 2 100 0 0 (by decide) (by decide)).1

/-! ### Query link state (Query Table indices 2 and 3, and `query->conn`) -/

/-- The three cross-index link fields of an `ares_query_t`: the back
pointer `conn`, the node in the connection's `queries_to_conn` list, and
the node in the channel's `queries_by_timeout` sorted sequence.  The two
node pointers are abstracted to their nullness. -/
structure QueryLinks where
  conn : Option Nat
  node_queries_to_conn : Bool
  node_queries_by_timeout : Bool
deriving DecidableEq, Repr

/-- `ares__query_remove_from_conn` (ares_process.c lines 67-75): destroy
both index nodes and clear the connection back pointer. -/
def ares__query_remove_from_conn (_q : QueryLinks) : QueryLinks :=
  { conn := none, node_queries_to_conn := false, node_queries_by_timeout := false }

/-- The successful tail of `ares__send_query` (ares_process.c lines
1112-1145): insert into `queries_by_timeout`, insert into the connection's
`queries_to_conn`, and set `query->conn` to the chosen connection. -/
def send_query_attach (c : Nat) (_q : QueryLinks) : QueryLinks :=
  { conn := some c, node_queries_to_conn := true, node_queries_by_timeout := true }

/-- The mid-`process_answer` step (ares_process.c lines 685-686): once an
answer matches, the query is unlinked from the connection's in-flight list
only; `conn` and the timeout node are untouched at that point. -/
def process_answer_unlink_conn (q : QueryLinks) : QueryLinks :=
  { q with node_queries_to_conn := false }

/-- The three-way equivalence of the specification (§3, Testable property
1): `query.conn` is set iff the query is on a connection's
`queries_to_conn` list iff it has a node in `queries_by_timeout`. -/
def linksConsistent (q : QueryLinks) : Prop :=
  (q.conn ≠ none ↔ q.node_queries_to_conn = true)
  ∧ (q.node_queries_to_conn = q.node_queries_by_timeout)

instance (q : QueryLinks) : Decidable (linksConsistent q) := by
  unfold linksConsistent; infer_instance

/-- The net effect of one `ares__send_query` call (ares_process.c lines
1039-1146) on the link state of the query being sent.  `none` means the
query was ended and freed within the call.  Constructors:
`end_query` covers every branch that calls `end_query` (no usable server,
non-retryable connection-open failure, `ARES_ENOMEM` from the write, and
the out-of-memory insert branches); `requeue_give_up` is
`ares__requeue_query` reaching its `end_query` arm after the retryable
open/write failures; `requeue_resend` is `ares__requeue_query` calling
back into `ares__send_query` after `ares__query_remove_from_conn`;
`attach_success` is the successful attach tail. -/
inductive SendQueryEffect : QueryLinks → Option QueryLinks → Prop where
  | end_query (q : QueryLinks) : SendQueryEffect q none
  | requeue_give_up (q : QueryLinks) : SendQueryEffect q none
  | requeue_resend (q : QueryLinks) (r : Option QueryLinks) :
      SendQueryEffect (ares__query_remove_from_conn q) r → SendQueryEffect q r
  | attach_success (q : QueryLinks) (c : Nat) :
      SendQueryEffect q (some (send_query_attach c q))

/-- The net effect of one `ares__requeue_query` call (ares_process.c lines
785-815) on the query's link state: remove from the connection, then
either resend through the dispatcher or end the query. -/
inductive RequeueEffect : QueryLinks → Option QueryLinks → Prop where
  | resend (q : QueryLinks) (r : Option QueryLinks) :
      SendQueryEffect (ares__query_remove_from_conn q) r → RequeueEffect q r
  | give_up (q : QueryLinks) : RequeueEffect q none

/-- The net effect of one `process_answer` call (ares_process.c lines
628-767) on the link state of one live query.  `dropped` covers the
zero-length, parse-failure, unknown-qid, question-mismatch and
cookie-rejection exits that leave the query untouched;
`cookie_requeued` is the cookie validator requeueing the query itself
(modelled from the spec, §4.G step 5: the validator may requeue);
the remaining constructors all pass through the in-flight unlink of lines
685-686 before resending (EDNS downgrade, TCP upgrade), requeueing
(SERVFAIL/NOTIMP/REFUSED), or ending the query (EDNS rewrite failure,
accepted answer). -/
inductive ProcessAnswerEffect : QueryLinks → Option QueryLinks → Prop where
  | dropped (q : QueryLinks) : ProcessAnswerEffect q (some q)
  | cookie_requeued (q : QueryLinks) (r : Option QueryLinks) :
      RequeueEffect q r → ProcessAnswerEffect q r
  | edns_downgrade_resend (q : QueryLinks) (r : Option QueryLinks) :
      SendQueryEffect (process_answer_unlink_conn q) r → ProcessAnswerEffect q r
  | edns_downgrade_failed (q : QueryLinks) : ProcessAnswerEffect q none
  | tcp_upgrade_resend (q : QueryLinks) (r : Option QueryLinks) :
      SendQueryEffect (process_answer_unlink_conn q) r → ProcessAnswerEffect q r
  | bad_rcode_requeued (q : QueryLinks) (r : Option QueryLinks) :
      RequeueEffect (process_answer_unlink_conn q) r → ProcessAnswerEffect q r
  | accepted (q : QueryLinks) : ProcessAnswerEffect q none

/-- The net effect of one public-API call on the link state of one live
query: the read phase of `processfds` hands inbound frames to
`process_answer`; `process_timeouts` requeues expired queries;
`handle_conn_error`/`ares__close_connection` requeues every query attached
to the closed connection (modelled from the spec, §5: connection closure
terminates queries via the normal requeue/end paths);
query submission enters `ares__send_query`; the host may also cancel
(free) a query outright. -/
inductive PublicCallEffect : QueryLinks → Option QueryLinks → Prop where
  | untouched (q : QueryLinks) : PublicCallEffect q (some q)
  | read_answer (q : QueryLinks) (r : Option QueryLinks) :
      ProcessAnswerEffect q r → PublicCallEffect q r
  | timed_out (q : QueryLinks) (r : Option QueryLinks) :
      RequeueEffect q r → PublicCallEffect q r
  | conn_error_closed (q : QueryLinks) (r : Option QueryLinks) :
      RequeueEffect q r → PublicCallEffect q r
  | submitted (q : QueryLinks) (r : Option QueryLinks) :
      SendQueryEffect q r → PublicCallEffect q r
  | host_cancelled (q : QueryLinks) : PublicCallEffect q none

/-- Every surviving outcome of `ares__send_query` is an attach. -/
theorem sendQueryEffect_result {q : QueryLinks} {r : Option QueryLinks}
    (h : SendQueryEffect q r) :
    r = none ∨ ∃ c, r = some ⟨some c, true, true⟩ := by
  induction h with
  | end_query => exact Or.inl rfl
  | requeue_give_up => exact Or.inl rfl
  | requeue_resend q r _ ih => exact ih
  | attach_success q c => exact Or.inr ⟨c, rfl⟩

/-- Every surviving outcome of `ares__requeue_query` is an attach. -/
theorem requeueEffect_result {q : QueryLinks} {r : Option QueryLinks}
    (h : RequeueEffect q r) :
    r = none ∨ ∃ c, r = some ⟨some c, true, true⟩ := by
  cases h with
  | resend _ hs => exact sendQueryEffect_result hs
  | give_up => exact Or.inl rfl

/-- Every surviving outcome of `process_answer` either left the query
untouched or reattached it. -/
theorem processAnswerEffect_result {q : QueryLinks} {r : Option QueryLinks}
    (h : ProcessAnswerEffect q r) :
    r = some q ∨ r = none ∨ ∃ c, r = some ⟨some c, true, true⟩ := by
  cases h with
  | dropped => exact Or.inl rfl
  | cookie_requeued _ hr => exact Or.inr (requeueEffect_result hr)
  | edns_downgrade_resend _ hs => exact Or.inr (sendQueryEffect_result hs)
  | edns_downgrade_failed => exact Or.inr (Or.inl rfl)
  | tcp_upgrade_resend _ hs => exact Or.inr (sendQueryEffect_result hs)
  | bad_rcode_requeued _ hr => exact Or.inr (requeueEffect_result hr)
  | accepted => exact Or.inr (Or.inl rfl)

/-- Claim C1: at every public-API boundary every live query satisfies the
three-way link equivalence (conn pointer set iff on a connection's
in-flight list iff in the timeout index); the preservation holds for each
public call's net effect, `ares__send_query` establishes all three
together on a successful attach, and `ares__query_remove_from_conn`
clears all three together. -/
theorem query_link_invariant :
    (∀ (q : QueryLinks) (r : Option QueryLinks) (q' : QueryLinks),
      PublicCallEffect q r → linksConsistent q → r = some q' → linksConsistent q')
    ∧ (∀ (c : Nat) (q : QueryLinks),
        (send_query_attach c q).conn = some c
        ∧ (send_query_attach c q).node_queries_to_conn = true
        ∧ (send_query_attach c q).node_queries_by_timeout = true)
    ∧ (∀ q : QueryLinks,
        (ares__query_remove_from_conn q).conn = none
        ∧ (ares__query_remove_from_conn q).node_queries_to_conn = false
        ∧ (ares__query_remove_from_conn q).node_queries_by_timeout = false) := by
  refine ⟨?_, fun c q => ⟨rfl, rfl, rfl⟩, fun q => ⟨rfl, rfl, rfl⟩⟩
  intro q r q' h hq hr
  have hres : r = some q ∨ r = none ∨ ∃ c, r = some ⟨some c, true, true⟩ := by
    cases h with
    | untouched => exact Or.inl rfl
    | read_answer _ hp => exact processAnswerEffect_result hp
    | timed_out _ hrq => exact Or.inr (requeueEffect_result hrq)
    | conn_error_closed _ hrq => exact Or.inr (requeueEffect_result hrq)
    | submitted _ hs => exact Or.inr (sendQueryEffect_result hs)
    | host_cancelled => exact Or.inr (Or.inl rfl)
  rcases hres with h1 | h1 | ⟨c, h1⟩
  · rw [hr] at h1
    injection h1 with h1
    rw [h1]
    exact hq
  · rw [hr] at h1
    exact absurd h1 (by simp)
  · rw [hr] at h1
    injection h1 with h1
    rw [h1]
    exact ⟨by simp, rfl⟩

/-- Witness for C1: a detached query untouched by a call, and a freshly
submitted query attached to connection 0, both satisfy the equivalence. -/
theorem query_link_invariant_witness :
    linksConsistent ⟨none, false, false⟩ ∧ linksConsistent ⟨some 0, true, true⟩ :=
  ⟨query_link_invariant.1 ⟨none, false, false⟩ (some ⟨none, false, false⟩)
      ⟨none, false, false⟩ (.untouched _) (by decide) rfl,
    query_link_invariant.1 ⟨none, false, false⟩
      (some (send_query_attach 0 ⟨none, false, false⟩)) ⟨some 0, true, true⟩
      (.submitted _ _ (.attach_success ⟨none, false, false⟩ 0)) (by decide) rfl⟩

/-! ### Requeue (`ares__requeue_query`) -/

/-- The fields of an `ares_query_t` read and written by
`ares__requeue_query`, together with its link state. -/
structure QueryState where
  links : QueryLinks
  error_status : Status
  try_count : Nat
  no_retries : Bool
deriving DecidableEq, Repr

/-- The terminal action taken by `ares__requeue_query`: hand the query
back to the dispatcher, or end it with a final status. -/
inductive RequeueOutcome where
  | resent
  | ended (final_status : Status)
deriving DecidableEq, Repr

/-- `ares__requeue_query` (ares_process.c lines 785-815).  The dispatcher
(`ares__send_query`) is an external collaborator here; its return value is
the parameter `send_query_status`.  Returns the C return value, the
updated query, and the terminal action. -/
def ares__requeue_query (query : QueryState) (status : Status)
    (inc_try_count : Bool) (num_servers tries : Nat)
    (send_query_status : Status) : Status × QueryState × RequeueOutcome :=
  let max_tries := num_servers * tries
  let links1 := ares__query_remove_from_conn query.links
  let error_status1 := if status ≠ Status.success then status else query.error_status
  let try_count1 := if inc_try_count then query.try_count + 1 else query.try_count
  if try_count1 < max_tries ∧ query.no_retries = false then
    (send_query_status,
     ⟨links1, error_status1, try_count1, query.no_retries⟩,
     RequeueOutcome.resent)
  else
    let error_status2 := if error_status1 = Status.success then Status.etimeout
                         else error_status1
    (Status.etimeout,
     ⟨links1, error_status2, try_count1, query.no_retries⟩,
     RequeueOutcome.ended error_status2)

/-- Claim C3: requeueing detaches the query from the connection and
timeout indices; records `status` into `error_status` only when it is not
`SUCCESS`; increments `try_count` when `inc_try_count`; then resends and
returns the dispatcher's status while `try_count < num_servers * tries`
and retries are allowed, and otherwise ends the query with the sticky
`error_status` (`ETIMEOUT` when no error was ever recorded) and returns
`ETIMEOUT`. -/
theorem requeue_query_spec (query : QueryState) (status : Status)
    (inc_try_count : Bool) (num_servers tries : Nat)
    (send_query_status : Status) :
    ((ares__requeue_query query status inc_try_count num_servers tries
        send_query_status).2.1.links = ⟨none, false, false⟩)
    ∧ ((ares__requeue_query query status inc_try_count num_servers tries
        send_query_status).2.1.try_count
          = query.try_count + (if inc_try_count then 1 else 0))
    ∧ (query.try_count + (if inc_try_count then 1 else 0) < num_servers * tries
        ∧ query.no_retries = false →
        ares__requeue_query query status inc_try_count num_servers tries
            send_query_status
          = (send_query_status,
             { links := ⟨none, false, false⟩,
               error_status := if status ≠ Status.success then status
                               else query.error_status,
               try_count := query.try_count + (if inc_try_count then 1 else 0),
               no_retries := query.no_retries },
             RequeueOutcome.resent))
    ∧ (¬(query.try_count + (if inc_try_count then 1 else 0) < num_servers * tries
          ∧ query.no_retries = false) →
        (ares__requeue_query query status inc_try_count num_servers tries
            send_query_status).1 = Status.etimeout
        ∧ (ares__requeue_query query status inc_try_count num_servers tries
            send_query_status).2.2
          = RequeueOutcome.ended
              (if (if status ≠ Status.success then status else query.error_status)
                  = Status.success
               then Status.etimeout
               else (if status ≠ Status.success then status
                     else query.error_status))) := by
  have hshape : (if inc_try_count then query.try_count + 1 else query.try_count)
      = query.try_count + (if inc_try_count then 1 else 0) := by
    split_ifs <;> omega
  simp only [ares__requeue_query, ares__query_remove_from_conn, hshape]
  refine ⟨?_, ?_, fun h => ?_, fun h => ?_⟩
  · split_ifs <;> rfl
  · split_ifs <;> rfl
  · rw [if_pos h]
  · rw [if_neg h]
    exact ⟨rfl, rfl⟩

/-- Witness for C3: a query on its last allowed try (`try_count` becomes
2 with `num_servers * tries = 2`), requeued with `ECONNREFUSED`: the call
ends the query with that sticky error and returns `ETIMEOUT`. -/
theorem requeue_query_spec_witness :
    (ares__requeue_query ⟨⟨some 0, true, true⟩, Status.success, 1, false⟩
        Status.econnrefused true 2 1 Status.success).1 = Status.etimeout
    ∧ (ares__requeue_query ⟨⟨some 0, true, true⟩, Status.success, 1, false⟩
        Status.econnrefused true 2 1 Status.success).2.2
      = RequeueOutcome.ended Status.econnrefused := by
  have h := (requeue_query_spec ⟨⟨some 0, true, true⟩, Status.success, 1, false⟩
    Status.econnrefused true 2 1 Status.success).2.2.2 (by decide)
  simpa using h

/-! ### Question equality (`same_questions`) -/

/-- ASCII lower-casing of one byte, the semantics of the `tolower`-based
comparison used by `ares_strcaseeq`. -/
def ares_tolower (c : Nat) : Nat := if 65 ≤ c ∧ c ≤ 90 then c + 32 else c

/-- `ares_streq`: case-sensitive name equality (names as byte lists). -/
def ares_streq (a b : List Nat) : Bool := a == b

/-- `ares_strcaseeq`: ASCII-case-insensitive name equality. -/
def ares_strcaseeq (a b : List Nat) : Bool :=
  a.map ares_tolower == b.map ares_tolower

/-- One question tuple `(name, type, class)` of a DNS record. -/
structure Question where
  qname : List Nat
  qtype : Nat
  qclass : Nat
deriving DecidableEq, Repr

/-- The fields of a parsed DNS record (`ares_dns_record_t`) inspected by
`process_answer`: the transaction id, the response code, the TC header
flag, whether an OPT RR is present, and the question section. -/
structure DnsRec where
  id : Nat
  rcode : Rcode
  flag_tc : Bool
  has_opt_rr : Bool
  questions : List Question
deriving DecidableEq, Repr

/-- The channel flags inspected by `process_answer` and
`same_questions`. -/
structure ChannelFlags where
  igntc : Bool
  nocheckresp : Bool
  dns0x20 : Bool
deriving DecidableEq, Repr

/-- The fields of an `ares_query_t` inspected by `process_answer`:
the transaction id, the question section of the outbound record
`query->query`, whether that record carries an OPT RR, and the
`using_tcp` flag. -/
structure Query where
  qid : Nat
  questions : List Question
  has_opt_rr : Bool
  using_tcp : Bool
deriving DecidableEq, Repr

/-- The per-index loop of `same_questions` (ares_process.c lines
1161-1200): compare type and class exactly, and the name with the
comparator selected by `dns0x20_udp` (case-sensitive when the DNS 0x20
protection applies, case-insensitive otherwise). -/
def same_questions_loop (dns0x20_udp : Bool) : List Question → List Question → Bool
  | [], [] => true
  | q :: qs, a :: arest =>
    if q.qtype == a.qtype && q.qclass == a.qclass
        && (if dns0x20_udp then ares_streq q.qname a.qname
            else ares_strcaseeq q.qname a.qname)
    then same_questions_loop dns0x20_udp qs arest
    else false
  | _, _ => false

/-- `same_questions` (ares_process.c lines 1148-1206): the question counts
must match, and every question must match per `same_questions_loop`; the
case-sensitive comparator is selected iff `ARES_FLAG_DNS0x20` is set and
the query is not using TCP. -/
def same_questions (flags : ChannelFlags) (query : Query) (arec : DnsRec) : Bool :=
  if query.questions.length ≠ arec.questions.length then false
  else same_questions_loop (flags.dns0x20 && !query.using_tcp)
         query.questions arec.questions

theorem same_questions_loop_iff (b : Bool) (p : Prop) [Decidable p]
    (hb : b = true ↔ p) (qs : List Question) :
    ∀ ars : List Question,
      same_questions_loop b qs ars = true ↔
        (qs.length = ars.length
          ∧ ∀ i qq aq, qs.get? i = some qq → ars.get? i = some aq →
              qq.qtype = aq.qtype ∧ qq.qclass = aq.qclass
              ∧ (if p then qq.qname = aq.qname
                 else qq.qname.map ares_tolower = aq.qname.map ares_tolower)) := by
  induction qs with
  | nil =>
    intro ars
    cases ars with
    | nil => simp [same_questions_loop]
    | cons a rest => simp [same_questions_loop]
  | cons q qs ih =>
    intro ars
    cases ars with
    | nil => simp [same_questions_loop]
    | cons a rest =>
      have hcond : (q.qtype == a.qtype && q.qclass == a.qclass
          && (if b then ares_streq q.qname a.qname
              else ares_strcaseeq q.qname a.qname)) = true
          ↔ (q.qtype = a.qtype ∧ q.qclass = a.qclass
             ∧ (if p then q.qname = a.qname
                else q.qname.map ares_tolower = a.qname.map ares_tolower)) := by
        rcases Bool.eq_false_or_eq_true b with hbt | hbf
        · have hp : p := hb.mp hbt
          rw [hbt, if_pos hp]
          simp [ares_streq, and_assoc, beq_iff_eq]
        · have hp : ¬ p := by rw [← hb, hbf]; simp
          rw [hbf, if_neg hp]
          simp [ares_strcaseeq, and_assoc, beq_iff_eq]
      by_cases hc : (q.qtype == a.qtype && q.qclass == a.qclass
          && (if b then ares_streq q.qname a.qname
              else ares_strcaseeq q.qname a.qname)) = true
      · rw [show same_questions_loop b (q :: qs) (a :: rest)
            = same_questions_loop b qs rest by
              simp only [same_questions_loop, if_pos hc], ih rest]
        rw [hcond] at hc
        constructor
        · rintro ⟨hlen, hall⟩
          refine ⟨by simp [hlen], fun i qq aq hq ha => ?_⟩
          cases i with
          | zero =>
            simp only [List.get?] at hq ha
            cases hq
            cases ha
            exact hc
          | succ i => exact hall i qq aq (by simpa using hq) (by simpa using ha)
        · rintro ⟨hlen, hall⟩
          refine ⟨by simpa using hlen, fun i qq aq hq ha => ?_⟩
          exact hall (i + 1) qq aq (by simpa using hq) (by simpa using ha)
      · rw [show same_questions_loop b (q :: qs) (a :: rest) = false by
            simp only [same_questions_loop, if_neg hc]]
        simp only [Bool.false_eq_true, false_iff]
        rintro ⟨hlen, hall⟩
        exact hc (hcond.mpr (hall 0 q a rfl rfl))

/-- Claim C6: `same_questions` returns true iff the question counts are
equal and for every question index the types and classes match exactly
and the names match, where name matching is case-sensitive exactly when
`FLAG_DNS0x20` is configured and `using_tcp` is unset, and
ASCII-case-insensitive otherwise. -/
theorem same_questions_spec (flags : ChannelFlags) (query : Query) (arec : DnsRec) :
    same_questions flags query arec = true ↔
      (query.questions.length = arec.questions.length
        ∧ ∀ i qq aq,
            query.questions.get? i = some qq → arec.questions.get? i = some aq →
            qq.qtype = aq.qtype ∧ qq.qclass = aq.qclass
            ∧ (if flags.dns0x20 = true ∧ query.using_tcp = false
               then qq.qname = aq.qname
               else qq.qname.map ares_tolower = aq.qname.map ares_tolower)) := by
  have hb : (flags.dns0x20 && !query.using_tcp) = true
      ↔ (flags.dns0x20 = true ∧ query.using_tcp = false) := by
    simp [Bool.and_eq_true, Bool.not_eq_true']
  unfold same_questions
  by_cases hlen : query.questions.length = arec.questions.length
  · rw [if_neg (by simp [hlen]),
      same_questions_loop_iff (flags.dns0x20 && !query.using_tcp)
        (flags.dns0x20 = true ∧ query.using_tcp = false) hb]
  · rw [if_pos hlen]
    simp only [Bool.false_eq_true, false_iff]
    rintro ⟨h, _⟩
    exact hlen h

/-- Witness for C6: a single-question query whose response echoes the
name in different ASCII case matches when `FLAG_DNS0x20` is unset. -/
theorem same_questions_spec_witness :
    same_questions ⟨false, false, false⟩ ⟨1, [⟨[65], 1, 1⟩], false, false⟩
        ⟨1, Rcode.noerror, false, false, [⟨[97], 1, 1⟩]⟩ = true :=
  (same_questions_spec ⟨false, false, false⟩ ⟨1, [⟨[65], 1, 1⟩], false, false⟩
      ⟨1, Rcode.noerror, false, false, [⟨[97], 1, 1⟩]⟩).mpr
    ⟨rfl, by
      intro i qq aq hq ha
      cases i with
      | zero =>
        cases hq
        cases ha
        decide
      | succ i => simp at hq⟩

/-! ### Response handling (`process_answer`) -/

/-- The state-changing calls `process_answer` makes, in program order.
`unlink_conn` is the destroy of `query->node_queries_to_conn` (lines
685-686); `requeue_query` records the arguments passed to
`ares__requeue_query` (status, `inc_try_count`, and whether the parsed
record is passed along); `send_query` is a resend through
`ares__send_query`; the remaining constructors name the corresponding
helper calls. -/
inductive Effect where
  | unlink_conn (qid : Nat)
  | rewrite_without_edns (qid : Nat)
  | send_query (qid : Nat)
  | set_using_tcp (qid : Nat)
  | server_increment_failures (using_tcp : Bool)
  | requeue_query (qid : Nat) (status : Status) (inc_try : Bool) (with_dnsrec : Bool)
  | qcache_insert (qid : Nat)
  | server_set_good (using_tcp : Bool)
  | end_query (qid : Nat) (status : Status)
deriving DecidableEq, Repr

/-- The `switch (rcode)` of `process_answer` (ares_process.c lines
725-737): map the discarded response codes to statuses. -/
def rcode_to_status : Rcode → Status
  | Rcode.servfail => Status.eservfail
  | Rcode.notimp => Status.enotimp
  | Rcode.refused => Status.erefused
  | _ => Status.success

/-- `process_answer` (ares_process.c lines 628-767), returning the C
return status together with the trace of state-changing calls it makes
(an empty trace = resolver state untouched).

External collaborators appear as parameters: `parse` is the result of
`ares_dns_parse` on the `alen`-byte message (`none` = malformed),
`cookie_validate_ok` the verdict of `ares_cookie_validate`.
`queries_by_qid` is the channel's qid index, `conn_is_tcp` the
`ARES_CONN_FLAG_TCP` bit of the receiving connection.  The
`rewrite_without_edns` helper (lines 598-623) succeeds exactly when the
outbound record holds an OPT RR, which the guard of its branch has
already established. -/
def process_answer (flags : ChannelFlags) (queries_by_qid : List Query)
    (parse : Option DnsRec) (alen : Nat) (conn_is_tcp : Bool)
    (cookie_validate_ok : Bool) : Status × List Effect :=
  if alen = 0 then (Status.success, [])
  else
    match parse with
    | none => (Status.ebadresp, [])
    | some rdnsrec =>
      match queries_by_qid.find? (fun q => q.qid == rdnsrec.id) with
      | none => (Status.success, [])
      | some query =>
        if same_questions flags query rdnsrec = false then (Status.success, [])
        else if cookie_validate_ok = false then (Status.success, [])
        else if rdnsrec.rcode = Rcode.formerr ∧ query.has_opt_rr = true
                ∧ rdnsrec.has_opt_rr = false then
          if query.has_opt_rr then
            (Status.success,
             [Effect.unlink_conn query.qid,
              Effect.rewrite_without_edns query.qid,
              Effect.send_query query.qid])
          else
            (Status.eformerr,
             [Effect.unlink_conn query.qid,
              Effect.end_query query.qid Status.eformerr])
        else if rdnsrec.flag_tc = true ∧ conn_is_tcp = false
                ∧ flags.igntc = false then
          (Status.success,
           [Effect.unlink_conn query.qid,
            Effect.set_using_tcp query.qid,
            Effect.send_query query.qid])
        else if flags.nocheckresp = false
                ∧ (rdnsrec.rcode = Rcode.servfail ∨ rdnsrec.rcode = Rcode.notimp
                   ∨ rdnsrec.rcode = Rcode.refused) then
          (Status.success,
           [Effect.unlink_conn query.qid,
            Effect.server_increment_failures query.using_tcp,
            Effect.requeue_query query.qid (rcode_to_status rdnsrec.rcode) true true])
        else
          (Status.success,
           [Effect.unlink_conn query.qid,
            Effect.qcache_insert query.qid,
            Effect.server_set_good query.using_tcp,
            Effect.end_query query.qid Status.success])

/-- Counterexample to claim C5 as frozen: a response that matches the
live query's qid and questions, passes cookie validation, has
`FLAG_NOCHECKRESP` unset and carries rcode SERVFAIL — but also has the TC
flag set on a UDP connection without `FLAG_IGNTC`.  `process_answer`
takes the truncation-upgrade path: it switches the query to TCP and
resends, with no failure increment and no requeue with `ESERVFAIL`. -/
theorem process_answer_rcode_tc_counterexample :
    process_answer ⟨false, false, false⟩
        [⟨1, [⟨[101, 120], 1, 1⟩], false, false⟩]
        (some ⟨1, Rcode.servfail, true, false, [⟨[101, 120], 1, 1⟩]⟩) 12 false true
      = (Status.success,
         [Effect.unlink_conn 1, Effect.set_using_tcp 1, Effect.send_query 1])
    ∧ Effect.server_increment_failures false
        ∉ [Effect.unlink_conn 1, Effect.set_using_tcp 1, Effect.send_query 1]
    ∧ Effect.requeue_query 1 Status.eservfail true true
        ∉ [Effect.unlink_conn 1, Effect.set_using_tcp 1, Effect.send_query 1] := by
  refine ⟨by decide, by decide, by decide⟩

/-- Claim C5 (amended): when `FLAG_NOCHECKRESP` is unset, the message is
non-empty and parses, the parsed response matches a live query's qid and
questions, passes cookie validation, does not take the truncation-upgrade
path (TC unset, or TCP connection, or `FLAG_IGNTC` set), and carries
rcode SERVFAIL/NOTIMP/REFUSED, `process_answer` maps the rcode to
`ESERVFAIL`/`ENOTIMP`/`EREFUSED`, increments the server's failure
counter, requeues the query with that status, an incremented try count
and the parsed record, and returns success. -/
theorem process_answer_bad_rcode_spec (flags : ChannelFlags)
    (queries : List Query) (rdnsrec : DnsRec) (query : Query) (alen : Nat)
    (conn_is_tcp : Bool)
    (hncr : flags.nocheckresp = false)
    (halen : alen ≠ 0)
    (hfind : queries.find? (fun q => q.qid == rdnsrec.id) = some query)
    (hsame : same_questions flags query rdnsrec = true)
    (htc : ¬(rdnsrec.flag_tc = true ∧ conn_is_tcp = false ∧ flags.igntc = false))
    (hrc : rdnsrec.rcode = Rcode.servfail ∨ rdnsrec.rcode = Rcode.notimp
           ∨ rdnsrec.rcode = Rcode.refused) :
    process_answer flags queries (some rdnsrec) alen conn_is_tcp true =
      (Status.success,
       [Effect.unlink_conn query.qid,
        Effect.server_increment_failures query.using_tcp,
        Effect.requeue_query query.qid (rcode_to_status rdnsrec.rcode) true true]) := by
  have hnf : rdnsrec.rcode ≠ Rcode.formerr := by
    rcases hrc with h | h | h <;> rw [h] <;> intro hcon <;> exact Rcode.noConfusion hcon
  simp only [process_answer, if_neg halen]
  split
  · rename_i heq
    exact absurd (hfind.symm.trans heq) (by simp)
  · rename_i q' heq
    have hq : q' = query := by
      have h2 := hfind.symm.trans heq
      injection h2 with h2
      exact h2.symm
    subst hq
    rw [if_neg (by simp [hsame]), if_neg (by simp),
      if_neg (fun hcon => hnf hcon.1), if_neg htc, if_pos ⟨hncr, hrc⟩]

/-- Witness for C5 (amended): a SERVFAIL response without TC for a live
UDP query. -/
theorem process_answer_bad_rcode_spec_witness :
    process_answer ⟨false, false, false⟩
        [⟨1, [⟨[101, 120], 1, 1⟩], false, false⟩]
        (some ⟨1, Rcode.servfail, false, false, [⟨[101, 120], 1, 1⟩]⟩) 12 false true
      = (Status.success,
         [Effect.unlink_conn 1,
          Effect.server_increment_failures false,
          Effect.requeue_query 1 (rcode_to_status Rcode.servfail) true true]) :=
  process_answer_bad_rcode_spec ⟨false, false, false⟩
    [⟨1, [⟨[101, 120], 1, 1⟩], false, false⟩]
    ⟨1, Rcode.servfail, false, false, [⟨[101, 120], 1, 1⟩]⟩
    ⟨1, [⟨[101, 120], 1, 1⟩], false, false⟩ 12 false
    rfl (by decide) (by decide) (by decide) (by decide) (Or.inl rfl)

/-- Claim C7: `process_answer` returns success and touches nothing for a
zero-length message, for a parsed response whose id matches no live
query, and for a response failing `same_questions`; and it returns
`EBADRESP` exactly when the message is non-empty and parsing fails. -/
theorem process_answer_status_spec (flags : ChannelFlags)
    (queries : List Query) (parse : Option DnsRec) (alen : Nat)
    (conn_is_tcp : Bool) (cookie_ok : Bool) :
    (alen = 0 →
      process_answer flags queries parse alen conn_is_tcp cookie_ok
        = (Status.success, []))
    ∧ (∀ rdnsrec, alen ≠ 0 → parse = some rdnsrec →
        queries.find? (fun q => q.qid == rdnsrec.id) = none →
        process_answer flags queries parse alen conn_is_tcp cookie_ok
          = (Status.success, []))
    ∧ (∀ rdnsrec query, alen ≠ 0 → parse = some rdnsrec →
        queries.find? (fun q => q.qid == rdnsrec.id) = some query →
        same_questions flags query rdnsrec = false →
        process_answer flags queries parse alen conn_is_tcp cookie_ok
          = (Status.success, []))
    ∧ ((process_answer flags queries parse alen conn_is_tcp cookie_ok).1
          = Status.ebadresp
        ↔ alen ≠ 0 ∧ parse = none) := by
  refine ⟨fun h0 => by simp [process_answer, h0], ?_, ?_, ?_⟩
  · intro rdnsrec halen hparse hfind
    simp only [process_answer, if_neg halen, hparse]
    split
    · rfl
    · rename_i q' heq
      exact absurd (hfind.symm.trans heq) (by simp)
  · intro rdnsrec query halen hparse hfind hsame
    simp only [process_answer, if_neg halen, hparse]
    split
    · rename_i heq
      exact absurd (hfind.symm.trans heq) (by simp)
    · rename_i q' heq
      have hq : q' = query := by
        have h2 := hfind.symm.trans heq
        injection h2 with h2
        exact h2.symm
      subst hq
      rw [if_pos hsame]
  · by_cases h0 : alen = 0
    · simp [process_answer, h0]
    · cases hparse : parse with
      | none => simp [process_answer, if_neg h0, hparse, h0]
      | some rdnsrec =>
        simp only [process_answer, if_neg h0, hparse]
        refine iff_of_false ?_ (by simp)
        intro habs
        split at habs
        · simp at habs
        · split_ifs at habs

/-- Witness for C7: a parsed response whose id matches no live query
(empty query table) is dropped with success. -/
theorem process_answer_status_spec_witness :
    process_answer ⟨false, false, false⟩ []
        (some ⟨7, Rcode.noerror, false, false, []⟩) 3 false true
      = (Status.success, []) :=
  (process_answer_status_spec ⟨false, false, false⟩ []
      (some ⟨7, Rcode.noerror, false, false, []⟩) 3 false true).2.1
    ⟨7, Rcode.noerror, false, false, []⟩ (by decide) rfl (by decide)

/-- Claim C10: when parsing a non-empty message fails, `process_answer`
returns `EBADRESP` with an empty effect trace — no query ended, requeued,
detached or mutated, no server counters touched, the query-table indices
exactly as before the call. -/
theorem process_answer_parse_failure_atomic (flags : ChannelFlags)
    (queries : List Query) (alen : Nat) (conn_is_tcp : Bool) (cookie_ok : Bool)
    (halen : alen ≠ 0) :
    process_answer flags queries none alen conn_is_tcp cookie_ok
      = (Status.ebadresp, []) := by
  simp [process_answer, halen]

/-- Witness for C10: a 2-byte unparseable message. -/
theorem process_answer_parse_failure_atomic_witness :
    process_answer ⟨false, false, false⟩ [] none 2 false true
      = (Status.ebadresp, []) :=
  process_answer_parse_failure_atomic ⟨false, false, false⟩ [] 2 false true
    (by decide)

/-! ### Query write (`ares__conn_query_write`) -/

/-- The inputs of `ares__conn_query_write` (ares_process.c lines
997-1037): the statuses returned by the external collaborators
(`ares_cookie_apply`, `ares_dns_write_buf_tcp`, `ares__conn_flush`), the
connection's transport flag and state bits, and the channel's
notify-pending-write callback configuration and flag. -/
structure WriteEnv where
  cookie_status : Status
  dns_write_status : Status
  conn_is_tcp : Bool
  conn_connected : Bool
  conn_tfo_initial : Bool
  notify_cb_configured : Bool
  notify_pending_write : Bool
  flush_status : Status
deriving DecidableEq, Repr

/-- Which exit `ares__conn_query_write` took: an early error from cookie
application or serialization, the deferred not-yet-connected TCP return,
the notify-callback return (the callback is invoked exactly on this
exit), or an immediate `ares__conn_flush`. -/
inductive WriteExit where
  | early_error
  | deferred_unconnected
  | notified
  | flushed
deriving DecidableEq, Repr

/-- `ares__conn_query_write` (ares_process.c lines 997-1037): returns the
status, the new value of `channel->notify_pending_write`, and which exit
was taken. -/
def ares__conn_query_write (e : WriteEnv) : Status × Bool × WriteExit :=
  if e.cookie_status ≠ Status.success then
    (e.cookie_status, e.notify_pending_write, WriteExit.early_error)
  else if e.dns_write_status ≠ Status.success then
    (e.dns_write_status, e.notify_pending_write, WriteExit.early_error)
  else if e.conn_is_tcp = true ∧ e.conn_connected = false
          ∧ e.conn_tfo_initial = false then
    (Status.success, e.notify_pending_write, WriteExit.deferred_unconnected)
  else if e.notify_cb_configured = true ∧ e.notify_pending_write = false
          ∧ e.conn_is_tcp = true then
    (Status.success, true, WriteExit.notified)
  else
    (e.flush_status, e.notify_pending_write, WriteExit.flushed)

/-- Counterexample to claim C9 as frozen: a connected TCP connection with
the callback configured but `notify_pending_write` already true.  The
claim requires the notified exit regardless of the prior flag value; the
code instead flushes immediately without invoking the callback. -/
theorem conn_query_write_pending_counterexample :
    ares__conn_query_write
        ⟨Status.success, Status.success, true, true, false, true, true,
          Status.success⟩
      = (Status.success, true, WriteExit.flushed)
    ∧ WriteExit.flushed ≠ WriteExit.notified :=
  ⟨by decide, by decide⟩

/-- Claim C9 (amended): after a successful serialization on a TCP
connection that is not deferred by the not-yet-connected rule, with the
notify callback configured: when `notify_pending_write` is not already
set the dispatcher sets it, invokes the callback and returns success
without flushing; when it is already set the outbound buffer is flushed
immediately, without invoking the callback. -/
theorem conn_query_write_defer_spec (e : WriteEnv)
    (hck : e.cookie_status = Status.success)
    (hw : e.dns_write_status = Status.success)
    (hcb : e.notify_cb_configured = true)
    (htcp : e.conn_is_tcp = true)
    (hdef : ¬(e.conn_is_tcp = true ∧ e.conn_connected = false
              ∧ e.conn_tfo_initial = false)) :
    (e.notify_pending_write = false →
      ares__conn_query_write e = (Status.success, true, WriteExit.notified))
    ∧ (e.notify_pending_write = true →
      ares__conn_query_write e = (e.flush_status, true, WriteExit.flushed)) := by
  refine ⟨fun hn => ?_, fun hn => ?_⟩
  · simp only [ares__conn_query_write]
    rw [if_neg (by simp [hck]), if_neg (by simp [hw]), if_neg hdef,
      if_pos ⟨hcb, hn, htcp⟩]
  · simp only [ares__conn_query_write]
    rw [if_neg (by simp [hck]), if_neg (by simp [hw]), if_neg hdef,
      if_neg (fun hcon => by simp [hn] at hcon), hn]

/-- Witness for C9 (amended): a connected TCP connection with the
callback configured and the flag clear defers the write. -/
theorem conn_query_write_defer_spec_witness :
    ares__conn_query_write
        ⟨Status.success, Status.success, true, true, false, true, false,
          Status.success⟩
      = (Status.success, true, WriteExit.notified) :=
  (conn_query_write_defer_spec
      ⟨Status.success, Status.success, true, true, false, true, false,
        Status.success⟩
      rfl rfl rfl rfl (by decide)).1 rfl

/-! ### Rotate-mode server selection (`ares__random_server`) -/

/-- The scan loop of `ares__random_server` (ares_process.c lines
838-847): walk the server sequence, counting up to the target index. -/
def random_server_scan {α : Type} : List α → Nat → Option α
  | [], _ => none
  | s :: _, 0 => some s
  | _ :: rest, i + 1 => random_server_scan rest i

/-- `ares__random_server` (ares_process.c lines 820-849): draw one random
byte `c` (so `c < 256`), reduce it modulo the server count, and scan to
that index. -/
def ares__random_server {α : Type} (servers : List α) (c : Nat) : Option α :=
  let num_servers := servers.length
  if num_servers = 0 then none
  else random_server_scan servers (c % num_servers)

theorem random_server_scan_eq_get {α : Type} (l : List α) :
    ∀ i : Nat, random_server_scan l i = l.get? i := by
  induction l with
  | nil => intro i; cases i <;> rfl
  | cons a rest ih => intro i; cases i with
    | zero => rfl
    | succ i => exact ih i

/-- Counterexample to claim C8 as frozen: with three servers, the 256
possible values of the drawn byte do not hit every server equally often
(server 0 is selected by 86 of them, server 1 by 85), so selection is not
uniform with probability exactly 1/n. -/
theorem random_server_not_uniform :
    ((Finset.range 256).filter
        (fun c => ares__random_server [0, 1, 2] c = some 0)).card
      ≠ ((Finset.range 256).filter
        (fun c => ares__random_server [0, 1, 2] c = some 1)).card := by
  decide

theorem card_range_filter_mod (n i : Nat) (hn : 0 < n) (hi : i < n) :
    ∀ N : Nat, ((Finset.range N).filter (fun c => c % n = i)).card
      = (N + (n - 1 - i)) / n := by
  intro N
  induction N with
  | zero =>
    rw [show (0 + (n - 1 - i)) / n = 0 from Nat.div_eq_of_lt (by omega)]
    simp
  | succ N ih =>
    rw [Finset.range_succ, Finset.filter_insert]
    have hstep : (N + 1 + (n - 1 - i)) = (N + (n - 1 - i)) + 1 := by omega
    have hdm := Nat.div_add_mod N n
    by_cases h : N % n = i
    · have hdvd : n ∣ (N + (n - 1 - i)) + 1 := by
        obtain ⟨A, hA⟩ : ∃ A, A = n * (N / n) := ⟨_, rfl⟩
        rw [← hA] at hdm
        refine ⟨N / n + 1, ?_⟩
        have hx : n * (N / n + 1) = n * (N / n) + n := by ring
        rw [hx, ← hA]
        omega
      rw [if_pos h, Finset.card_insert_of_not_mem (by simp), ih, hstep,
        Nat.succ_div, if_pos hdvd]
    · have hdvd : ¬ n ∣ (N + (n - 1 - i)) + 1 := by
        rintro ⟨k, hk⟩
        have hb : N % n < n := Nat.mod_lt _ hn
        obtain ⟨A, hA⟩ : ∃ A, A = n * (N / n) := ⟨_, rfl⟩
        obtain ⟨K, hK⟩ : ∃ K, K = n * k := ⟨_, rfl⟩
        rw [← hA] at hdm
        rw [← hK] at hk
        have h4 : n ∣ N % n + n - i := by
          have heqs : N % n + n - i = K - A := by omega
          rw [heqs, hK, hA]
          exact Nat.dvd_sub' (dvd_mul_right n k) (dvd_mul_right n (N / n))
        obtain ⟨m, hm⟩ := h4
        have hlow : 0 < N % n + n - i := by omega
        have hhigh : N % n + n - i < 2 * n := by omega
        have hm1 : m = 1 := by
          by_contra hm1
          rcases Nat.lt_or_ge m 1 with h5 | h5
          · have h6 : m = 0 := by omega
            subst h6
            simp at hm
            omega
          · have h6 : 2 ≤ m := by omega
            have h7 : n * 2 ≤ n * m := Nat.mul_le_mul_left n h6
            obtain ⟨B, hB⟩ : ∃ B, B = n * m := ⟨_, rfl⟩
            rw [← hB] at hm h7
            omega
        subst hm1
        simp at hm
        omega
      rw [if_neg h, ih, hstep, Nat.succ_div, if_neg hdvd]
      omega

/-- Claim C8 (amended): in rotate mode with `n ≥ 1` servers, the map from
the 256 possible values of the drawn random byte to the selected server
hits the server at sorted position `i` exactly `(256 + (n - 1 - i)) / n`
times — equal for every `i` (probability exactly `1/n`) only when `n`
divides 256, and biased toward earlier servers otherwise. -/
theorem random_server_hit_count (n i : Nat) (hn : 0 < n) (hi : i < n) :
    ((Finset.range 256).filter
        (fun c => ares__random_server (List.range n) c = some i)).card
      = (256 + (n - 1 - i)) / n := by
  have hsel : ∀ c : Nat,
      (ares__random_server (List.range n) c = some i) ↔ (c % n = i) := by
    intro c
    simp only [ares__random_server, List.length_range, random_server_scan_eq_get]
    rw [if_neg (by omega), List.get?_range (Nat.mod_lt c hn)]
    simp
  have hfilter : (Finset.range 256).filter
        (fun c => ares__random_server (List.range n) c = some i)
      = (Finset.range 256).filter (fun c => c % n = i) := by
    apply Finset.filter_congr
    intro c _
    simp [hsel c]
  rw [hfilter, card_range_filter_mod n i hn hi 256]

/-- Witness for C8 (amended): with three servers, position 0 is hit 86
times out of 256. -/
theorem random_server_hit_count_witness :
    ((Finset.range 256).filter
        (fun c => ares__random_server (List.range 3) c = some 0)).card
      = (256 + (3 - 1 - 0)) / 3 :=
  random_server_hit_count 3 0 (by decide) (by decide)

end AresProcess
